import Mathlib

/-!
# Verification of `bctoolbox` logging header (`logging.h`)

Shallow embedding of the logging facility declared in
`src/XCFrameworks/bctoolbox.xcframework/ios-arm64_x86_64-simulator/bctoolbox.framework/Headers/logging.h`.

The header contains: the `BctbxLogLevel` enum, variadic façade functions
(`bctbx_message`, `bctbx_warning`, `bctbx_error`, `bctbx_fatal`, `bctbx_log`)
that forward to `bctbx_logv`, the C++ `pumpstream` stream-style log pump,
and the `bctoolbox::log::level` stream insertion/extraction operators.
Functions whose implementation lives in the precompiled binary
(`bctbx_set_log_level`, `bctbx_log_level_enabled`, the tag stack, the
handler registry dispatch) are modelled from the spec, as marked in their
doc comments.
-/

namespace Bctbx

/-- The `BctbxLogLevel` enum from `logging.h` lines 49-57. -/
inductive BctbxLogLevel where
  | BCTBX_LOG_DEBUG
  | BCTBX_LOG_TRACE
  | BCTBX_LOG_MESSAGE
  | BCTBX_LOG_WARNING
  | BCTBX_LOG_ERROR
  | BCTBX_LOG_FATAL
  | BCTBX_LOG_LOGLEV_END
  deriving DecidableEq, Repr

open BctbxLogLevel

/-- Numeric value of each enumerator, exactly as written in the source:
`BCTBX_LOG_DEBUG = 1`, `BCTBX_LOG_TRACE = 1 << 1`, ..., `BCTBX_LOG_LOGLEV_END = 1 << 6`. -/
def BctbxLogLevel.toNat : BctbxLogLevel → Nat
  | BCTBX_LOG_DEBUG => 1
  | BCTBX_LOG_TRACE => 1 <<< 1
  | BCTBX_LOG_MESSAGE => 1 <<< 2
  | BCTBX_LOG_WARNING => 1 <<< 3
  | BCTBX_LOG_ERROR => 1 <<< 4
  | BCTBX_LOG_FATAL => 1 <<< 5
  | BCTBX_LOG_LOGLEV_END => 1 <<< 6

/-- The six severity levels (without the `BCTBX_LOG_LOGLEV_END` sentinel),
in increasing order of severity as listed in the enum. -/
def severityLevels : List BctbxLogLevel :=
  [BCTBX_LOG_DEBUG, BCTBX_LOG_TRACE, BCTBX_LOG_MESSAGE,
   BCTBX_LOG_WARNING, BCTBX_LOG_ERROR, BCTBX_LOG_FATAL]

/-- `BCTBX_LOG_DOMAIN` defaults to `"bctbx"` when the build does not define it
(`logging.h` lines 41-43). -/
def BCTBX_LOG_DOMAIN : String := "bctbx"

/-- A call to `bctbx_logv(domain, level, fmt, args)`: the implementation is in
the precompiled binary, so at this boundary we record exactly what is passed
to it. -/
structure LogvCall where
  domain : String
  level : BctbxLogLevel
  fmt : String
  deriving DecidableEq, Repr

/-- `bctbx_logv` as observed at the header boundary: it receives the domain,
level and format string forwarded by the façade functions. -/
def bctbx_logv (domain : String) (level : BctbxLogLevel) (fmt : String) : LogvCall :=
  ⟨domain, level, fmt⟩

/-- `bctbx_log(domain, lev, fmt, ...)` (`logging.h` lines 248-253):
forwards its arguments to `bctbx_logv` unchanged. -/
def bctbx_log (domain : String) (lev : BctbxLogLevel) (fmt : String) : LogvCall :=
  bctbx_logv domain lev fmt

/-- `bctbx_message(fmt, ...)` (`logging.h` lines 255-260):
calls `bctbx_logv(BCTBX_LOG_DOMAIN, BCTBX_LOG_MESSAGE, fmt, args)`. -/
def bctbx_message (fmt : String) : LogvCall :=
  bctbx_logv BCTBX_LOG_DOMAIN BCTBX_LOG_MESSAGE fmt

/-- `bctbx_warning(fmt, ...)` (`logging.h` lines 262-267):
calls `bctbx_logv(BCTBX_LOG_DOMAIN, BCTBX_LOG_WARNING, fmt, args)`. -/
def bctbx_warning (fmt : String) : LogvCall :=
  bctbx_logv BCTBX_LOG_DOMAIN BCTBX_LOG_WARNING fmt

/-- `bctbx_error(fmt, ...)` (`logging.h` lines 271-276):
calls `bctbx_logv(BCTBX_LOG_DOMAIN, BCTBX_LOG_ERROR, fmt, args)`. -/
def bctbx_error (fmt : String) : LogvCall :=
  bctbx_logv BCTBX_LOG_DOMAIN BCTBX_LOG_ERROR fmt

/-- `bctbx_fatal(fmt, ...)` (`logging.h` lines 278-283):
calls `bctbx_logv(BCTBX_LOG_DOMAIN, BCTBX_LOG_FATAL, fmt, args)`. -/
def bctbx_fatal (fmt : String) : LogvCall :=
  bctbx_logv BCTBX_LOG_DOMAIN BCTBX_LOG_FATAL fmt

/-! ## The `pumpstream` stream-style log pump (`logging.h` lines 339-393) -/

/-- State of a `pumpstream` object: the enabled flag computed by the
constructor, the captured domain and level, and the accumulated
`mOstringstream` buffer (rendered as a string). -/
structure Pumpstream where
  mIslogLevelEnabled : Bool
  mDomain : String
  mLevel : BctbxLogLevel
  mOstringstream : String
  deriving DecidableEq, Repr

/-- The `pumpstream(domain, level)` constructor (`logging.h` lines 343-353).
`debugMode` is true iff the build defines `BCTBX_DEBUG_MODE`; `enabled` is
the external `bctbx_log_level_enabled` function (implemented in the binary),
passed as an oracle. When `BCTBX_DEBUG_MODE` is not defined and the level is
`BCTBX_LOG_DEBUG`, the constructor sets `mIslogLevelEnabled = false` and
returns without calling `bctbx_log_level_enabled`; otherwise it sets
`mIslogLevelEnabled = bctbx_log_level_enabled(domain, level)`. -/
def Pumpstream.mk'
    (debugMode : Bool) (enabled : String → BctbxLogLevel → Bool)
    (domain : String) (level : BctbxLogLevel) : Pumpstream :=
  if ¬debugMode ∧ level = BctbxLogLevel.BCTBX_LOG_DEBUG then
    ⟨false, domain, level, ""⟩
  else
    ⟨enabled domain level, domain, level, ""⟩

/-- Whether the `pumpstream` constructor calls `bctbx_log_level_enabled`
(`logging.h` lines 344-352): it skips the call exactly when `BCTBX_DEBUG_MODE`
is not defined and the requested level is `BCTBX_LOG_DEBUG`. -/
def Pumpstream.consultsEnabled (debugMode : Bool) (level : BctbxLogLevel) : Bool :=
  ¬(¬debugMode ∧ level = BctbxLogLevel.BCTBX_LOG_DEBUG)

/-- `operator<<(pumpstream&, T&&)` (`logging.h` lines 379-385): appends the
rendered value to `mOstringstream` only when `mIslogLevelEnabled` is set,
otherwise leaves the pump unchanged. `x` is the rendered text of the
inserted value. -/
def Pumpstream.insert (ps : Pumpstream) (x : String) : Pumpstream :=
  if ps.mIslogLevelEnabled then
    { ps with mOstringstream := ps.mOstringstream ++ x }
  else
    ps

/-- The `~pumpstream()` destructor (`logging.h` lines 355-357): when
`mIslogLevelEnabled` is set it calls
`bctbx_log(mDomain, mLevel, "%s", mOstringstream.str().c_str())`, which
dispatches the accumulated buffer; otherwise it does nothing. The result is
the `bctbx_logv` call it produces, or `none`. The `"%s"` format renders the
buffer verbatim, so the dispatched message is the buffer itself. -/
def Pumpstream.destruct (ps : Pumpstream) : Option LogvCall :=
  if ps.mIslogLevelEnabled then
    some (bctbx_log ps.mDomain ps.mLevel ps.mOstringstream)
  else
    none

/-! ## The C++ `bctoolbox::log::level` stream operators (`logging.h` lines 304-333) -/

namespace log

/-- The name table shared by `operator<<` and `operator>>`
(`logging.h` lines 311 and 320). -/
def levelNames : List String :=
  ["normal", "trace", "debug", "info", "warning", "error", "fatal"]

/-- `operator<<(basic_ostream&, level)` (`logging.h` lines 308-315).
The argument is the integer value of the `bctoolbox::log::level` enum
(possibly out of range, obtained by a cast); a C `int` is 32-bit. The code
compares `static_cast<std::size_t>(lvl)` (value modulo 2^64, since `size_t`
is 64-bit on the target) against the array length 7; in range it streams the
name, otherwise it streams `static_cast<int>(lvl)` in decimal. -/
def levelInsert (lvl : Int) : String :=
  if h : (lvl % (2 : Int) ^ 64).toNat < levelNames.length then
    levelNames.get ⟨(lvl % (2 : Int) ^ 64).toNat, h⟩
  else toString lvl

/-- `operator>>(basic_istream&, level&)` (`logging.h` lines 317-333).
`s` is the whitespace-delimited token extracted by `strm >> s`; `old` is the
prior value of the output variable `lvl`. The loop assigns `lvl` the index of
the first matching name and leaves the stream good (`true`); if no name
matches, `lvl` is left unmodified and the stream's failbit is set (`false`). -/
def levelExtract (old : Nat) (s : String) : Nat × Bool :=
  match levelNames.findIdx? (fun t => s = t) with
  | some n => (n, true)
  | none => (old, false)

end log

/-! ## Operations implemented in the precompiled binary, modelled from the spec -/

/-- Per-domain severity mask table: the mask of enabled level bits for each
domain. -/
abbrev MaskTable := String → Nat

/-- Modelled from the spec: `bctbx_log_level_enabled(domain, level)`
(declared at `logging.h` line 134, implementation in the binary). Spec 4.1:
"A level is enabled iff its bit is present in the resolved mask" — here the
global mask registered for the domain (no thread-local override in play). -/
def bctbx_log_level_enabled (masks : MaskTable) (domain : String)
    (level : BctbxLogLevel) : Bool :=
  Nat.land (masks domain) level.toNat ≠ 0

/-- Modelled from the spec: `bctbx_set_log_level(domain, level)`
(declared at `logging.h` line 147, implementation in the binary).
Header doc: "Activate all log level greater or equal than specified level
argument"; spec 4.1: "setting a level via set level to X enables X and all
more-severe levels (a cumulative floor)". The new mask for the domain is the
bitwise OR of the bits of the given level and of every more-severe level. -/
def bctbx_set_log_level (masks : MaskTable) (domain : String)
    (level : BctbxLogLevel) : MaskTable :=
  fun d =>
    if d = domain then
      (severityLevels.filter (fun l => level.toNat ≤ l.toNat)).foldl
        (fun m l => Nat.lor m l.toNat) 0
    else masks d

/-- Modelled from the spec: the thread-local tag stack manipulated by
`bctbx_push_log_tag` / `bctbx_pop_log_tag` (declared at `logging.h`
lines 174-179, implementation in the binary). Most recent push first; a
pushed identifier shadows earlier entries for the same identifier, which
stay on the stack and are exposed again when the shadowing entry is popped. -/
abbrev TagStack := List (String × String)

/-- Modelled from the spec: `bctbx_push_log_tag(tag_identifier, tag_value)`.
Header doc (lines 165-174): "Each push for the same tag_identifier overrides
the previous value given for that same tag_identifier"; the previous value is
saved (stack discipline per identifier, spec 4.2). -/
def bctbx_push_log_tag (st : TagStack) (id v : String) : TagStack :=
  (id, v) :: st

/-- Modelled from the spec: `bctbx_pop_log_tag(tag_identifier)`.
Header doc (line 171): "A bctbx_pop_log_tag() with the same tag_identifier
restores the previous value"; spec 8: "pop without a matching push is a
no-op". Removes the most recent entry for the identifier, if any. -/
def bctbx_pop_log_tag (st : TagStack) (id : String) : TagStack :=
  match st with
  | [] => []
  | (i, v) :: rest =>
      if i = id then rest else (i, v) :: bctbx_pop_log_tag rest id

/-- Current value of a tag identifier: the most recently pushed value for it,
if any. -/
def TagStack.current (st : TagStack) (id : String) : Option String :=
  (st.find? (fun p => p.1 = id)).map (fun p => p.2)

/-- A registered log handler, keeping only what dispatch inspects: its
optional domain restriction set by `bctbx_log_handler_set_domain`
(`logging.h` line 105: "set domain the handler is limited to. NULL for ALL").
`ident` distinguishes handlers in a registry. -/
structure Handler where
  ident : Nat
  domain : Option String
  deriving DecidableEq, Repr

/-- Modelled from the spec: dispatch of one accepted log event through the
handler registry (spec 4.3): "invoke every registered handler whose domain
restriction is null or equals the event's domain", in registration order.
Returns the handlers invoked, in order, one occurrence per invocation. -/
def dispatchEvent (handlers : List Handler) (eventDomain : String) : List Handler :=
  handlers.filter (fun h => h.domain = none ∨ h.domain = some eventDomain)

/-! ## Helper lemmas -/

/-- Popping an identifier that occurs nowhere in the tag stack leaves the
stack unchanged. -/
theorem pop_log_tag_no_match (st : TagStack) (id : String)
    (h : ∀ p ∈ st, p.1 ≠ id) : bctbx_pop_log_tag st id = st := by
  induction st with
  | nil => rfl
  | cons p rest ih =>
      have hp : p.1 ≠ id := h p (List.mem_cons_self p rest)
      have hrest := ih fun q hq => h q (List.mem_cons_of_mem p hq)
      simp [bctbx_pop_log_tag, hp, hrest]

/-! ## Claims -/

/-- C1: after `bctbx_set_log_level(D, L)`, `bctbx_log_level_enabled(D, L')`
returns true exactly when `L'` is `L` or a more-severe level (larger enum
value), and false for every less-severe level. -/
theorem C1_set_log_level_cumulative_floor
    (masks : MaskTable) (D : String) (L L' : BctbxLogLevel)
    (hL : L ∈ severityLevels) (hL' : L' ∈ severityLevels) :
    bctbx_log_level_enabled (bctbx_set_log_level masks D L) D L'
      = decide (L.toNat ≤ L'.toNat) := by
  fin_cases hL <;> fin_cases hL' <;>
    simp [bctbx_log_level_enabled, bctbx_set_log_level, severityLevels,
      BctbxLogLevel.toNat] <;>
    decide

theorem C1_witness :
    BctbxLogLevel.BCTBX_LOG_WARNING ∈ severityLevels ∧
    BctbxLogLevel.BCTBX_LOG_ERROR ∈ severityLevels ∧
    bctbx_log_level_enabled
        (bctbx_set_log_level (fun _ => 0) "sip" BctbxLogLevel.BCTBX_LOG_WARNING)
        "sip" BctbxLogLevel.BCTBX_LOG_ERROR
      = decide (BctbxLogLevel.BCTBX_LOG_WARNING.toNat
          ≤ BctbxLogLevel.BCTBX_LOG_ERROR.toNat) :=
  ⟨by decide, by decide,
    C1_set_log_level_cumulative_floor (fun _ => 0) "sip" _ _ (by decide) (by decide)⟩

/-- C2 counterexample: in a build without `BCTBX_DEBUG_MODE` (the default),
constructing a pump at level `BCTBX_LOG_DEBUG` does not consult
`bctbx_log_level_enabled` at all, and even when that check would report the
level enabled (oracle constantly true), the destructor dispatches nothing —
refuting "for every level, construction consults the check and dispatch
happens iff it reported enabled". -/
theorem C2_counterexample :
    Pumpstream.consultsEnabled false BctbxLogLevel.BCTBX_LOG_DEBUG = false ∧
    (Pumpstream.mk' false (fun _ _ => true) "bctbx"
        BctbxLogLevel.BCTBX_LOG_DEBUG).destruct = none := by
  constructor <;> rfl

/-- C2 (amended): when `BCTBX_DEBUG_MODE` is defined, or the level is not
`BCTBX_LOG_DEBUG`, the constructor consults `bctbx_log_level_enabled(domain,
level)` and the destructor dispatches iff that check reported the level
enabled; when `BCTBX_DEBUG_MODE` is not defined and the level is
`BCTBX_LOG_DEBUG`, the constructor skips the check and the destructor never
dispatches. -/
theorem C2_pumpstream_dispatch
    (debugMode : Bool) (enabled : String → BctbxLogLevel → Bool)
    (domain : String) (level : BctbxLogLevel) :
    (debugMode = true ∨ level ≠ BctbxLogLevel.BCTBX_LOG_DEBUG →
      Pumpstream.consultsEnabled debugMode level = true ∧
      (Pumpstream.mk' debugMode enabled domain level).destruct.isSome
        = enabled domain level) ∧
    (debugMode = false ∧ level = BctbxLogLevel.BCTBX_LOG_DEBUG →
      Pumpstream.consultsEnabled debugMode level = false ∧
      (Pumpstream.mk' debugMode enabled domain level).destruct = none) := by
  constructor
  · rintro (h | h)
    · subst h
      refine ⟨rfl, ?_⟩
      simp only [Pumpstream.mk']
      rw [if_neg (by simp)]
      simp [Pumpstream.destruct]
      cases enabled domain level <;> simp
    · refine ⟨by simp [Pumpstream.consultsEnabled, h], ?_⟩
      simp only [Pumpstream.mk']
      rw [if_neg (by tauto)]
      simp [Pumpstream.destruct]
      cases enabled domain level <;> simp
  · rintro ⟨hd, hl⟩
    subst hd; subst hl
    exact ⟨rfl, rfl⟩

theorem C2_witness :
    Pumpstream.consultsEnabled false BctbxLogLevel.BCTBX_LOG_ERROR = true ∧
    (Pumpstream.mk' false (fun _ _ => true) "bctbx"
        BctbxLogLevel.BCTBX_LOG_ERROR).destruct.isSome = true :=
  (C2_pumpstream_dispatch false (fun _ _ => true) "bctbx"
    BctbxLogLevel.BCTBX_LOG_ERROR).1 (Or.inr (by decide))

/-- C3: when the pump's enabled flag is down, every insertion leaves the
pump (its `mOstringstream` included) unchanged, and destruction invokes no
handler (no `bctbx_log` call). -/
theorem C3_disabled_pump_no_side_effects
    (ps : Pumpstream) (x : String) (h : ps.mIslogLevelEnabled = false) :
    ps.insert x = ps ∧ ps.destruct = none := by
  simp [Pumpstream.insert, Pumpstream.destruct, h]

theorem C3_witness :
    (Pumpstream.mk false "bctbx" BctbxLogLevel.BCTBX_LOG_MESSAGE
        "").mIslogLevelEnabled = false ∧
    ((Pumpstream.mk false "bctbx" BctbxLogLevel.BCTBX_LOG_MESSAGE "").insert "hello"
        = Pumpstream.mk false "bctbx" BctbxLogLevel.BCTBX_LOG_MESSAGE "" ∧
      (Pumpstream.mk false "bctbx" BctbxLogLevel.BCTBX_LOG_MESSAGE "").destruct
        = none) :=
  ⟨rfl, C3_disabled_pump_no_side_effects _ "hello" rfl⟩

/-- C4: with a handler restricted to domain "A" and an unrestricted handler
registered, an accepted event with domain "A" invokes both exactly once, and
an accepted event with domain "B" invokes only the unrestricted handler,
exactly once. -/
theorem C4_handler_fanout :
    (dispatchEvent [⟨0, some "A"⟩, ⟨1, none⟩] "A").count ⟨0, some "A"⟩ = 1 ∧
    (dispatchEvent [⟨0, some "A"⟩, ⟨1, none⟩] "A").count ⟨1, none⟩ = 1 ∧
    (dispatchEvent [⟨0, some "A"⟩, ⟨1, none⟩] "B").count ⟨0, some "A"⟩ = 0 ∧
    (dispatchEvent [⟨0, some "A"⟩, ⟨1, none⟩] "B").count ⟨1, none⟩ = 1 := by
  decide

/-- C5: `push(id, v1); push(id, v2); pop(id)` leaves the current value of
`id` equal to `v1` (from any starting stack), and popping an identifier with
no matching prior push leaves the tag stack unchanged. -/
theorem C5_tag_stack_discipline
    (st st' : TagStack) (id v1 v2 : String)
    (hnone : ∀ p ∈ st', p.1 ≠ id) :
    TagStack.current
        (bctbx_pop_log_tag
          (bctbx_push_log_tag (bctbx_push_log_tag st id v1) id v2) id) id
      = some v1 ∧
    bctbx_pop_log_tag st' id = st' := by
  refine ⟨?_, pop_log_tag_no_match st' id hnone⟩
  simp [bctbx_push_log_tag, bctbx_pop_log_tag, TagStack.current]

theorem C5_witness :
    (∀ p ∈ ([("other", "x")] : TagStack), p.1 ≠ "id") ∧
    (TagStack.current
        (bctbx_pop_log_tag
          (bctbx_push_log_tag (bctbx_push_log_tag [] "id" "v1") "id" "v2") "id") "id"
      = some "v1" ∧
    bctbx_pop_log_tag [("other", "x")] "id" = [("other", "x")]) :=
  ⟨by decide, C5_tag_stack_discipline [] [("other", "x")] "id" "v1" "v2" (by decide)⟩

/-- C6: each variadic façade forwards to `bctbx_logv` with
`BCTBX_LOG_DOMAIN` (defaulting to "bctbx") and its fixed severity, and
`bctbx_log` forwards its given domain and level unchanged. -/
theorem C6_facade_forwarding (domain fmt : String) (lev : BctbxLogLevel) :
    bctbx_message fmt = bctbx_logv "bctbx" BctbxLogLevel.BCTBX_LOG_MESSAGE fmt ∧
    bctbx_warning fmt = bctbx_logv "bctbx" BctbxLogLevel.BCTBX_LOG_WARNING fmt ∧
    bctbx_error fmt = bctbx_logv "bctbx" BctbxLogLevel.BCTBX_LOG_ERROR fmt ∧
    bctbx_fatal fmt = bctbx_logv "bctbx" BctbxLogLevel.BCTBX_LOG_FATAL fmt ∧
    bctbx_log domain lev fmt = bctbx_logv domain lev fmt ∧
    BCTBX_LOG_DOMAIN = "bctbx" :=
  ⟨rfl, rfl, rfl, rfl, rfl, rfl⟩

/-- C7: the six severity levels have pairwise-disjoint single-bit values
1, 2, 4, 8, 16, 32, strictly increasing with severity, and the sentinel
`BCTBX_LOG_LOGLEV_END = 64` is a further bit disjoint from and above all of
them, so level sets compose by bitwise OR without collisions. -/
theorem C7_level_bits :
    severityLevels.map BctbxLogLevel.toNat = [1, 2, 4, 8, 16, 32] ∧
    (∀ a ∈ severityLevels, ∀ b ∈ severityLevels,
      a ≠ b → Nat.land a.toNat b.toNat = 0) ∧
    (∀ i j : Fin severityLevels.length, i < j →
      (severityLevels.get i).toNat < (severityLevels.get j).toNat) ∧
    (∀ l ∈ severityLevels,
      l.toNat < BctbxLogLevel.BCTBX_LOG_LOGLEV_END.toNat ∧
      Nat.land l.toNat BctbxLogLevel.BCTBX_LOG_LOGLEV_END.toNat = 0) := by
  decide

/-- C8: for each of the seven `bctoolbox::log::level` values (0 through 6),
inserting it with `operator<<` yields a name that `operator>>` parses back
to exactly the original value, leaving the stream good. -/
theorem C8_level_roundtrip (l old : Nat) (h : l < 7) :
    log.levelExtract old (log.levelInsert (l : Int)) = (l, true) := by
  interval_cases l <;> rfl

theorem C8_witness :
    4 < 7 ∧ log.levelExtract 0 (log.levelInsert ((4 : Nat) : Int)) = (4, true) :=
  ⟨by decide, C8_level_roundtrip 4 0 (by decide)⟩

/-- C9: extracting a token that is none of the seven level names sets the
failbit (stream not good) and leaves the output level variable unmodified. -/
theorem C9_extract_unknown_token (old : Nat) (s : String)
    (h : s ∉ log.levelNames) :
    log.levelExtract old s = (old, false) := by
  have hnone : log.levelNames.findIdx? (fun t => s = t) = none := by
    rw [List.findIdx?_eq_none_iff]
    intro t ht
    simp only [decide_eq_false_iff_not]
    intro he
    subst he
    exact h ht
  simp [log.levelExtract, hnone]

theorem C9_witness :
    "verbose" ∉ log.levelNames ∧
    log.levelExtract 3 "verbose" = (3, false) :=
  ⟨by decide, C9_extract_unknown_token 3 "verbose" (by decide)⟩

/-- C10: for any `int`-range value cast to `bctoolbox::log::level`,
`operator<<` never reads the name array out of bounds: values 0 through 6
print the corresponding name, and every other value prints its decimal
integer representation. -/
theorem C10_level_insert_total (lvl : Int)
    (hrange : -(2 : Int) ^ 31 ≤ lvl ∧ lvl < 2 ^ 31) :
    log.levelInsert lvl =
      if 0 ≤ lvl ∧ lvl < 7 then log.levelNames.getD lvl.toNat "" else toString lvl := by
  by_cases h : 0 ≤ lvl ∧ lvl < 7
  · rw [if_pos h]
    obtain ⟨h0, h7⟩ := h
    interval_cases lvl <;> rfl
  · rw [if_neg h]
    rw [log.levelInsert, dif_neg]
    simp only [log.levelNames, List.length_cons, List.length_nil]
    omega

theorem C10_witness :
    (-(2 : Int) ^ 31 ≤ 9 ∧ (9 : Int) < 2 ^ 31) ∧
    log.levelInsert 9 =
      (if (0 : Int) ≤ 9 ∧ (9 : Int) < 7 then log.levelNames.getD (9 : Int).toNat ""
       else toString (9 : Int)) :=
  ⟨by norm_num, C10_level_insert_total 9 (by norm_num)⟩

end Bctbx
